import Mathlib

/-!
Verification of the manifest metadata model of `iceberg-rs`
(`src/model/manifest.rs`).

The Rust code is a set of `serde` decode targets for Avro container
records.  We shallowly embed the wire values the container reader hands to
serde as the inductive type `Wire`, and translate each derived
`Deserialize` implementation (together with its `serde` / `serde_as`
attributes: `rename_all`, `default`, `DefaultOnNull`, `Bytes`, `Option`
handling) into an explicit decoder `Except DecodeError _`.  The pair
helper structs `NumPair` / `BytesPair` get both directions, mirroring
their `SerializeAs` / `DeserializeAs` impls.
-/

/-- A wire value as produced by the external container (Avro) reader:
null, integer, string, boolean, byte sequence, array, or a record of
named fields. -/
inductive Wire where
  | nullV  : Wire
  | intV   : Int → Wire
  | strV   : String → Wire
  | boolV  : Bool → Wire
  | bytesV : List Nat → Wire
  | arrV   : List Wire → Wire
  | recV   : List (String × Wire) → Wire
deriving Repr

/-- Decode errors: a required field absent, or a value of the wrong shape. -/
inductive DecodeError where
  | missingField : String → DecodeError
  | typeError    : String → DecodeError
deriving Repr, DecidableEq

/-- Signed 32-bit range, as checked by serde when deserializing `i32`. -/
def isI32 (n : Int) : Prop := -(2 ^ 31) ≤ n ∧ n < 2 ^ 31

/-- Signed 64-bit range, as checked by serde when deserializing `i64`. -/
def isI64 (n : Int) : Prop := -(2 ^ 63) ≤ n ∧ n < 2 ^ 63

instance (n : Int) : Decidable (isI32 n) := by unfold isI32; infer_instance

instance (n : Int) : Decidable (isI64 n) := by unfold isI64; infer_instance

/-- Look up a field by name in the field list of a record (first match). -/
def getField : List (String × Wire) → String → Option Wire
  | [], _ => none
  | (k, v) :: rest, n => if k = n then some v else getField rest n

/-- Deserialize an `i32` (Rust `i32` field). -/
def decodeI32 : Wire → Except DecodeError Int
  | .intV n => if isI32 n then .ok n else .error (.typeError "i32 out of range")
  | _ => .error (.typeError "expected i32")

/-- Deserialize an `i64` (Rust `i64` field). -/
def decodeI64 : Wire → Except DecodeError Int
  | .intV n => if isI64 n then .ok n else .error (.typeError "i64 out of range")
  | _ => .error (.typeError "expected i64")

/-- Deserialize a `String` field. -/
def decodeString : Wire → Except DecodeError String
  | .strV s => .ok s
  | _ => .error (.typeError "expected string")

/-- Deserialize a `bool` field. -/
def decodeBool : Wire → Except DecodeError Bool
  | .boolV b => .ok b
  | _ => .error (.typeError "expected bool")

/-- Deserialize a `Vec<u8>` field annotated `#[serde_as(as = "Bytes")]`:
the wire already carries a byte sequence. -/
def decodeBytes : Wire → Except DecodeError (List Nat)
  | .bytesV bs => .ok bs
  | _ => .error (.typeError "expected bytes")

/-- Deserialize a `serde_json::Value` field: any wire value is accepted
verbatim. -/
def decodeValue : Wire → Except DecodeError Wire := .ok

/-- Sequence an element decoder over a list of wire values, stopping at
the first error (the semantics of deserializing `Vec<T>`). -/
def decodeList (f : Wire → Except DecodeError α) :
    List Wire → Except DecodeError (List α)
  | [] => .ok []
  | w :: ws => do
      let a ← f w
      let as ← decodeList f ws
      .ok (a :: as)

/-- Deserialize a `Vec<T>` field from a wire array. -/
def decodeArr (f : Wire → Except DecodeError α) : Wire → Except DecodeError (List α)
  | .arrV ws => decodeList f ws
  | _ => .error (.typeError "expected array")

/-- A required struct field: absent fails with a missing-field error,
otherwise the inner decoder runs (serde default behaviour). -/
def reqField (fs : List (String × Wire)) (n : String)
    (f : Wire → Except DecodeError α) : Except DecodeError α :=
  match getField fs n with
  | none => .error (.missingField n)
  | some w => f w

/-- An `Option<T>` struct field: absent or null decodes to `none`
(serde derive behaviour for `Option` fields), otherwise `some` of the
inner decode. -/
def optField (fs : List (String × Wire)) (n : String)
    (f : Wire → Except DecodeError α) : Except DecodeError (Option α) :=
  match getField fs n with
  | none => .ok none
  | some .nullV => .ok none
  | some w => do
      let a ← f w
      .ok (some a)

/-- A field annotated only `#[serde(default)]`: absent yields the default,
but a present value — including an explicit null — goes through the inner
decoder unchanged. -/
def defaultField (fs : List (String × Wire)) (n : String)
    (f : Wire → Except DecodeError α) (d : α) : Except DecodeError α :=
  match getField fs n with
  | none => .ok d
  | some w => f w

/-- A field annotated `#[serde(default)]` together with
`#[serde_as(as = "DefaultOnNull<..>")]`: absent yields the default, an
explicit null also yields the default, anything else goes through the
inner decoder. -/
def defaultOnNullField (fs : List (String × Wire)) (n : String)
    (f : Wire → Except DecodeError α) (d : α) : Except DecodeError α :=
  match getField fs n with
  | none => .ok d
  | some .nullV => .ok d
  | some w => f w

namespace NumPair

/-- Impl `SerializeAs<(i32, i64)> for NumPair`: a pair is written as a
two-field `{key, value}` record. -/
def serializeAs (p : Int × Int) : Wire :=
  .recV [("key", .intV p.1), ("value", .intV p.2)]

/-- Impl `DeserializeAs<(i32, i64)> for NumPair`: decode the `{key, value}`
record back into a pair. -/
def deserializeAs (w : Wire) : Except DecodeError (Int × Int) :=
  match w with
  | .recV fs => do
      let k ← reqField fs "key" decodeI32
      let v ← reqField fs "value" decodeI64
      .ok (k, v)
  | _ => .error (.typeError "expected pair record")

end NumPair

namespace BytesPair

/-- Impl `SerializeAs<(i32, Vec<u8>)> for BytesPair`. -/
def serializeAs (p : Int × List Nat) : Wire :=
  .recV [("key", .intV p.1), ("value", .bytesV p.2)]

/-- Impl `DeserializeAs<(i32, Vec<u8>)> for BytesPair`. -/
def deserializeAs (w : Wire) : Except DecodeError (Int × List Nat) :=
  match w with
  | .recV fs => do
      let k ← reqField fs "key" decodeI32
      let v ← reqField fs "value" decodeBytes
      .ok (k, v)
  | _ => .error (.typeError "expected pair record")

end BytesPair

/-- Encode a `Vec<(i32, i64)>` statistics map as an array of pair records. -/
def encodeNumPairs (ps : List (Int × Int)) : Wire :=
  .arrV (ps.map NumPair.serializeAs)

/-- Decode an array of pair records back to `Vec<(i32, i64)>`. -/
def decodeNumPairs : Wire → Except DecodeError (List (Int × Int)) :=
  decodeArr NumPair.deserializeAs

/-- Encode a `Vec<(i32, Vec<u8>)>` statistics map as an array of pair
records. -/
def encodeBytesPairs (ps : List (Int × List Nat)) : Wire :=
  .arrV (ps.map BytesPair.serializeAs)

/-- Decode an array of pair records back to `Vec<(i32, Vec<u8>)>`. -/
def decodeBytesPairs : Wire → Except DecodeError (List (Int × List Nat)) :=
  decodeArr BytesPair.deserializeAs

/-- One `NumPair` round-trips when its key is a valid `i32` and its value
a valid `i64`. -/
theorem numPair_roundtrip_elem (k v : Int) (hk : isI32 k) (hv : isI64 v) :
    NumPair.deserializeAs (NumPair.serializeAs (k, v)) = .ok (k, v) := by
  simp [NumPair.serializeAs, NumPair.deserializeAs, reqField, getField,
    decodeI32, decodeI64, hk, hv]
  rfl

/-- One `BytesPair` round-trips when its key is a valid `i32`. -/
theorem bytesPair_roundtrip_elem (k : Int) (bs : List Nat) (hk : isI32 k) :
    BytesPair.deserializeAs (BytesPair.serializeAs (k, bs)) = .ok (k, bs) := by
  simp [BytesPair.serializeAs, BytesPair.deserializeAs, reqField, getField,
    decodeBytes, decodeI32, hk]
  rfl

/-- Claim C1: for every ordered list of (int32, int64) pairs and every
ordered list of (int32, byte-sequence) pairs — including the empty list
and lists with duplicate keys — encoding via the pair codec and then
decoding yields the identical ordered list: no deduplication, no sorting,
input order preserved exactly. -/
theorem sparse_pair_roundtrip (ns : List (Int × Int)) (bs : List (Int × List Nat))
    (hns : ∀ p ∈ ns, isI32 p.1 ∧ isI64 p.2) (hbs : ∀ p ∈ bs, isI32 p.1) :
    decodeNumPairs (encodeNumPairs ns) = .ok ns ∧
    decodeBytesPairs (encodeBytesPairs bs) = .ok bs := by
  constructor
  · induction ns with
    | nil => rfl
    | cons p ps ih =>
        have hp := hns p (List.mem_cons_self p ps)
        have ihps := ih (fun q hq => hns q (List.mem_cons_of_mem p hq))
        simp only [decodeNumPairs, encodeNumPairs, decodeArr, List.map_cons,
          decodeList, numPair_roundtrip_elem p.1 p.2 hp.1 hp.2]
        simp only [decodeNumPairs, encodeNumPairs, decodeArr] at ihps
        rw [show ((p.1, p.2) : Int × Int) = p from rfl]
        simp only [ihps]
        rfl
  · induction bs with
    | nil => rfl
    | cons p ps ih =>
        have hp := hbs p (List.mem_cons_self p ps)
        have ihps := ih (fun q hq => hbs q (List.mem_cons_of_mem p hq))
        simp only [decodeBytesPairs, encodeBytesPairs, decodeArr, List.map_cons,
          decodeList, bytesPair_roundtrip_elem p.1 p.2 hp]
        simp only [decodeBytesPairs, encodeBytesPairs, decodeArr] at ihps
        rw [show ((p.1, p.2) : Int × List Nat) = p from rfl]
        simp only [ihps]
        rfl

/-- Witness for C1: a concrete list with a duplicate key round-trips. -/
theorem sparse_pair_roundtrip_witness :
    decodeNumPairs (encodeNumPairs [(1, 10), (1, 20), (2, 30)]) =
      .ok [(1, 10), (1, 20), (2, 30)] ∧
    decodeBytesPairs (encodeBytesPairs [(7, [0, 255]), (7, [])]) =
      .ok [(7, [0, 255]), (7, [])] :=
  sparse_pair_roundtrip [(1, 10), (1, 20), (2, 30)] [(7, [0, 255]), (7, [])]
    (by decide) (by decide)

/-- Rust `pub struct ManifestList`: one row of a manifest-list file. -/
structure ManifestList where
  manifest_path : String
  manifest_length : Int
  partition_spec_id : Int
  sequence_number : Int
  content : Int
deriving Repr

/-- Derived `Deserialize` for `ManifestList` (no rename, all fields
required). -/
def ManifestList.decode (w : Wire) : Except DecodeError ManifestList :=
  match w with
  | .recV fs => do
      let manifest_path ← reqField fs "manifest_path" decodeString
      let manifest_length ← reqField fs "manifest_length" decodeI64
      let partition_spec_id ← reqField fs "partition_spec_id" decodeI32
      let sequence_number ← reqField fs "sequence_number" decodeI32
      let content ← reqField fs "content" decodeI32
      .ok ⟨manifest_path, manifest_length, partition_spec_id,
        sequence_number, content⟩
  | _ => .error (.typeError "expected ManifestList record")

/-- Rust `pub struct FieldSummary`: per-partition-field pruning statistics. -/
structure FieldSummary where
  contains_null : Bool
  contains_nan : Bool
  lower_bound : List Nat
  upper_bound : List Nat
deriving Repr, DecidableEq

/-- Derived `Deserialize` for `FieldSummary`: all four fields are
required; the bounds are `Vec<u8>` via `serde_as(as = "Bytes")` with no
default and no null handling. -/
def FieldSummary.decode (w : Wire) : Except DecodeError FieldSummary :=
  match w with
  | .recV fs => do
      let contains_null ← reqField fs "contains_null" decodeBool
      let contains_nan ← reqField fs "contains_nan" decodeBool
      let lower_bound ← reqField fs "lower_bound" decodeBytes
      let upper_bound ← reqField fs "upper_bound" decodeBytes
      .ok ⟨contains_null, contains_nan, lower_bound, upper_bound⟩
  | _ => .error (.typeError "expected FieldSummary record")

/-- Rust `pub struct ManifestFile`: summary row for one manifest inside a
manifest list. -/
structure ManifestFile where
  manifest_path : String
  manifest_length : Int
  added_snapshot_id : Int
  added_files_count : Option Int
  existing_files_count : Option Int
  deleted_fields_count : Option Int
  partitions : List FieldSummary
  added_rows_count : Option Int
  existing_rows_count : Option Int
  deleted_rows_count : Option Int
  partition_spec_id : Int
deriving Repr

/-- Derived `Deserialize` for `ManifestFile`: the six count fields are
`Option<_>` (absent or null decodes to `None`), everything else is
required. -/
def ManifestFile.decode (w : Wire) : Except DecodeError ManifestFile :=
  match w with
  | .recV fs => do
      let manifest_path ← reqField fs "manifest_path" decodeString
      let manifest_length ← reqField fs "manifest_length" decodeI64
      let added_snapshot_id ← reqField fs "added_snapshot_id" decodeI64
      let added_files_count ← optField fs "added_files_count" decodeI32
      let existing_files_count ← optField fs "existing_files_count" decodeI32
      let deleted_fields_count ← optField fs "deleted_fields_count" decodeI32
      let partitions ← reqField fs "partitions" (decodeArr FieldSummary.decode)
      let added_rows_count ← optField fs "added_rows_count" decodeI64
      let existing_rows_count ← optField fs "existing_rows_count" decodeI64
      let deleted_rows_count ← optField fs "deleted_rows_count" decodeI64
      let partition_spec_id ← reqField fs "partition_spec_id" decodeI32
      .ok ⟨manifest_path, manifest_length, added_snapshot_id,
        added_files_count, existing_files_count, deleted_fields_count,
        partitions, added_rows_count, existing_rows_count,
        deleted_rows_count, partition_spec_id⟩
  | _ => .error (.typeError "expected ManifestFile record")

/-- Rust `pub struct DataFile`: metadata of one data or delete file. -/
structure DataFile where
  file_path : String
  file_format : String
  partition : Wire
  record_count : Int
  file_size_in_bytes : Int
  column_sizes : List (Int × Int)
  value_counts : List (Int × Int)
  null_value_counts : List (Int × Int)
  distinct_counts : List (Int × Int)
  lower_bounds : List (Int × List Nat)
  upper_bounds : List (Int × List Nat)
  key_metadata : List Nat
  split_offsets : List Int
  equality_ids : List Int
  content : Int
  nan_value_counts : List (Int × Int)
  sort_order_id : Int
deriving Repr

/-- Derived `Deserialize` for `DataFile`: the statistics maps and
`key_metadata` carry `#[serde(default)]` plus
`#[serde_as(as = "DefaultOnNull<..>")]`; `split_offsets` and
`equality_ids` carry only `#[serde(default)]`; the rest are required. -/
def DataFile.decode (w : Wire) : Except DecodeError DataFile :=
  match w with
  | .recV fs => do
      let file_path ← reqField fs "file_path" decodeString
      let file_format ← reqField fs "file_format" decodeString
      let partition ← reqField fs "partition" decodeValue
      let record_count ← reqField fs "record_count" decodeI64
      let file_size_in_bytes ← reqField fs "file_size_in_bytes" decodeI64
      let column_sizes ← defaultOnNullField fs "column_sizes" decodeNumPairs []
      let value_counts ← defaultOnNullField fs "value_counts" decodeNumPairs []
      let null_value_counts ← defaultOnNullField fs "null_value_counts" decodeNumPairs []
      let distinct_counts ← defaultOnNullField fs "distinct_counts" decodeNumPairs []
      let lower_bounds ← defaultOnNullField fs "lower_bounds" decodeBytesPairs []
      let upper_bounds ← defaultOnNullField fs "upper_bounds" decodeBytesPairs []
      let key_metadata ← defaultOnNullField fs "key_metadata" decodeBytes []
      let split_offsets ← defaultField fs "split_offsets" (decodeArr decodeI64) []
      let equality_ids ← defaultField fs "equality_ids" (decodeArr decodeI32) []
      let content ← reqField fs "content" decodeI32
      let nan_value_counts ← defaultOnNullField fs "nan_value_counts" decodeNumPairs []
      let sort_order_id ← reqField fs "sort_order_id" decodeI32
      .ok ⟨file_path, file_format, partition, record_count,
        file_size_in_bytes, column_sizes, value_counts, null_value_counts,
        distinct_counts, lower_bounds, upper_bounds, key_metadata,
        split_offsets, equality_ids, content, nan_value_counts,
        sort_order_id⟩
  | _ => .error (.typeError "expected DataFile record")

/-- Rust `pub struct ManifestEntry`: one row of a manifest file. -/
structure ManifestEntry where
  status : Int
  snapshot_id : Option Int
  data_file : DataFile
  sequence_number : Option Int
  file_sequence_number : Option Int
deriving Repr

/-- Derived `Deserialize` for `ManifestEntry`: `status` and `data_file`
are required; `snapshot_id`, `sequence_number` and
`file_sequence_number` are `Option<i64>` (absent or null decodes to
`None`, with no substitution of inherited values). -/
def ManifestEntry.decode (w : Wire) : Except DecodeError ManifestEntry :=
  match w with
  | .recV fs => do
      let status ← reqField fs "status" decodeI32
      let snapshot_id ← optField fs "snapshot_id" decodeI64
      let data_file ← reqField fs "data_file" DataFile.decode
      let sequence_number ← optField fs "sequence_number" decodeI64
      let file_sequence_number ← optField fs "file_sequence_number" decodeI64
      .ok ⟨status, snapshot_id, data_file, sequence_number,
        file_sequence_number⟩
  | _ => .error (.typeError "expected ManifestEntry record")

/-- Rust `pub struct Manifest`: the manifest header record
(`rename_all = "kebab-case"`). -/
structure Manifest where
  schema : ManifestEntry
  schema_id : Int
  partition_spec : Wire
  partition_spec_id : String
  format_version : Int
  content : String
deriving Repr

/-- Derived `Deserialize` for `Manifest`: field names are kebab-cased;
`schema` is typed as a full `ManifestEntry` record; only
`partition_spec_id` carries `#[serde(default)]` (absent decodes to the
empty string); every other field is required. -/
def Manifest.decode (w : Wire) : Except DecodeError Manifest :=
  match w with
  | .recV fs => do
      let schema ← reqField fs "schema" ManifestEntry.decode
      let schema_id ← reqField fs "schema-id" decodeI64
      let partition_spec ← reqField fs "partition-spec" decodeValue
      let partition_spec_id ← defaultField fs "partition-spec-id" decodeString ""
      let format_version ← reqField fs "format-version" decodeI64
      let content ← reqField fs "content" decodeString
      .ok ⟨schema, schema_id, partition_spec, partition_spec_id,
        format_version, content⟩
  | _ => .error (.typeError "expected Manifest record")

/-- Whether a decode succeeded. -/
def decOk : Except DecodeError α → Bool
  | .ok _ => true
  | .error _ => false

/-- Unfold a required field once its wire value is known. -/
theorem reqField_eq {fs : List (String × Wire)} {n : String} {w : Wire}
    (f : Wire → Except DecodeError α) (h : getField fs n = some w) :
    reqField fs n f = f w := by
  simp [reqField, h]

/-- An `Option` field that is absent or null decodes to `none`. -/
theorem optField_none {fs : List (String × Wire)} {n : String}
    (f : Wire → Except DecodeError α)
    (h : getField fs n = none ∨ getField fs n = some .nullV) :
    optField fs n f = .ok none := by
  rcases h with h | h <;> simp [optField, h]

/-- A `#[serde(default)]` field that is absent decodes to its default. -/
theorem defaultField_none {fs : List (String × Wire)} {n : String}
    (f : Wire → Except DecodeError α) (d : α) (h : getField fs n = none) :
    defaultField fs n f d = .ok d := by
  simp [defaultField, h]

/-- A `DefaultOnNull` field that is absent or null decodes to its
default. -/
theorem defaultOnNull_none {fs : List (String × Wire)} {n : String}
    (f : Wire → Except DecodeError α) (d : α)
    (h : getField fs n = none ∨ getField fs n = some .nullV) :
    defaultOnNullField fs n f d = .ok d := by
  rcases h with h | h <;> simp [defaultOnNullField, h]

/-- Unfold a `DefaultOnNull` field once its (non-null) wire value is
known. -/
theorem defaultOnNull_eq {fs : List (String × Wire)} {n : String}
    (f : Wire → Except DecodeError α) (d : α) {ws : List Wire}
    (h : getField fs n = some (.arrV ws)) :
    defaultOnNullField fs n f d = f (.arrV ws) := by
  simp [defaultOnNullField, h]

/-- Unfold a plain `#[serde(default)]` field once its wire value is
known. -/
theorem defaultField_eq {fs : List (String × Wire)} {n : String} {w : Wire}
    (f : Wire → Except DecodeError α) (d : α)
    (h : getField fs n = some w) :
    defaultField fs n f d = f w := by
  simp [defaultField, h]

/-- A bind whose continuation always fails yields a failure. -/
theorem decOk_bind_false {α β : Type} (e : Except DecodeError α)
    {f : α → Except DecodeError β} (h : ∀ a, decOk (f a) = false) :
    decOk (e >>= f) = false := by
  cases e with
  | ok a => exact h a
  | error err => rfl

/-- Decoding a wire array of in-range integers via `decodeI64` returns
exactly that list. -/
theorem decodeArr_i64 (os : List Int) (h : ∀ o ∈ os, isI64 o) :
    decodeArr decodeI64 (.arrV (os.map Wire.intV)) = .ok os := by
  induction os with
  | nil => rfl
  | cons o os ih =>
      have ho := h o (List.mem_cons_self o os)
      have ihos := ih (fun q hq => h q (List.mem_cons_of_mem o hq))
      simp only [decodeArr, List.map_cons, decodeList, decodeI64, ihos, ho,
        if_pos]
      simp only [decodeArr] at ihos
      simp [ihos]
      rfl

/-- Fields of a concrete, fully-valid `DataFile` record in which every
defaulted field is absent. -/
def exampleDataFileFields : List (String × Wire) :=
  [("file_path", .strV "s3://b/f.parquet"), ("file_format", .strV "parquet"),
   ("partition", .nullV), ("record_count", .intV 100),
   ("file_size_in_bytes", .intV 2048), ("content", .intV 0),
   ("sort_order_id", .intV 0)]

/-- The `DataFile` value that `exampleDataFileFields` decodes to. -/
def exampleDataFile : DataFile :=
  ⟨"s3://b/f.parquet", "parquet", .nullV, 100, 2048, [], [], [], [], [],
   [], [], [], [], 0, [], 0⟩

/-- Claim C8: decoding a manifest-list record with manifest_path
"m1.avro", manifest_length 1024, partition_spec_id 0, sequence_number 1
and content 0 succeeds and yields a `ManifestList` holding exactly those
five values. -/
theorem manifestList_end_to_end :
    ManifestList.decode (.recV
      [("manifest_path", .strV "m1.avro"), ("manifest_length", .intV 1024),
       ("partition_spec_id", .intV 0), ("sequence_number", .intV 1),
       ("content", .intV 0)]) =
      .ok ⟨"m1.avro", 1024, 0, 1, 0⟩ := by
  rfl

/-- Claim C9: null handling in `DataFile` is asymmetric — a
`split_offsets` or `equality_ids` field explicitly present with a null
value fails decode (for any surrounding record), while both fields
absent decode to the empty list, and the statistics maps such as
`column_sizes` accept an explicit null (decoding to the empty list). -/
theorem dataFile_list_null_asymmetry (fs gs : List (String × Wire))
    (h1 : getField fs "split_offsets" = some .nullV)
    (h2 : getField gs "equality_ids" = some .nullV) :
    decOk (DataFile.decode (.recV fs)) = false ∧
    decOk (DataFile.decode (.recV gs)) = false ∧
    DataFile.decode (.recV exampleDataFileFields) = .ok exampleDataFile ∧
    DataFile.decode
        (.recV (exampleDataFileFields ++ [("column_sizes", .nullV)])) =
      .ok exampleDataFile := by
  refine ⟨?_, ?_, by rfl, by rfl⟩
  · have hda : defaultField fs "split_offsets" (decodeArr decodeI64) [] =
        .error (.typeError "expected array") := by
      simp [defaultField, h1, decodeArr]
    simp only [DataFile.decode]
    apply decOk_bind_false; intro file_path
    apply decOk_bind_false; intro file_format
    apply decOk_bind_false; intro partition
    apply decOk_bind_false; intro record_count
    apply decOk_bind_false; intro file_size_in_bytes
    apply decOk_bind_false; intro column_sizes
    apply decOk_bind_false; intro value_counts
    apply decOk_bind_false; intro null_value_counts
    apply decOk_bind_false; intro distinct_counts
    apply decOk_bind_false; intro lower_bounds
    apply decOk_bind_false; intro upper_bounds
    apply decOk_bind_false; intro key_metadata
    rw [hda]
    rfl
  · have hda : defaultField gs "equality_ids" (decodeArr decodeI32) [] =
        .error (.typeError "expected array") := by
      simp [defaultField, h2, decodeArr]
    simp only [DataFile.decode]
    apply decOk_bind_false; intro file_path
    apply decOk_bind_false; intro file_format
    apply decOk_bind_false; intro partition
    apply decOk_bind_false; intro record_count
    apply decOk_bind_false; intro file_size_in_bytes
    apply decOk_bind_false; intro column_sizes
    apply decOk_bind_false; intro value_counts
    apply decOk_bind_false; intro null_value_counts
    apply decOk_bind_false; intro distinct_counts
    apply decOk_bind_false; intro lower_bounds
    apply decOk_bind_false; intro upper_bounds
    apply decOk_bind_false; intro key_metadata
    apply decOk_bind_false; intro split_offsets
    rw [hda]
    rfl

/-- Witness for C9 at concrete records that carry an explicit null in
`split_offsets` resp. `equality_ids`. -/
theorem dataFile_list_null_asymmetry_witness :
    decOk (DataFile.decode (.recV
        (exampleDataFileFields ++ [("split_offsets", .nullV)]))) = false ∧
    decOk (DataFile.decode (.recV
        (exampleDataFileFields ++ [("equality_ids", .nullV)]))) = false := by
  have h := dataFile_list_null_asymmetry
    (exampleDataFileFields ++ [("split_offsets", .nullV)])
    (exampleDataFileFields ++ [("equality_ids", .nullV)])
    (by rfl) (by rfl)
  exact ⟨h.1, h.2.1⟩

/-- Claim C2: for every `DataFile` record whose required fields are
well-formed and in which each of the optional statistics fields
(`column_sizes`, `value_counts`, `null_value_counts`, `distinct_counts`,
`nan_value_counts`, `lower_bounds`, `upper_bounds`) and `key_metadata`
is absent or explicitly null — in any combination — decoding succeeds
and every such field resolves to the empty collection. -/
theorem dataFile_null_default (fs : List (String × Wire))
    (p fmt : String) (pv : Wire) (rc fsz c s : Int)
    (hp : getField fs "file_path" = some (.strV p))
    (hf : getField fs "file_format" = some (.strV fmt))
    (hpv : getField fs "partition" = some pv)
    (hrc : getField fs "record_count" = some (.intV rc)) (hrc64 : isI64 rc)
    (hfs : getField fs "file_size_in_bytes" = some (.intV fsz))
    (hfs64 : isI64 fsz)
    (hcon : getField fs "content" = some (.intV c)) (hc32 : isI32 c)
    (hsort : getField fs "sort_order_id" = some (.intV s)) (hs32 : isI32 s)
    (hso : getField fs "split_offsets" = none)
    (heq : getField fs "equality_ids" = none)
    (h1 : getField fs "column_sizes" = none ∨
      getField fs "column_sizes" = some .nullV)
    (h2 : getField fs "value_counts" = none ∨
      getField fs "value_counts" = some .nullV)
    (h3 : getField fs "null_value_counts" = none ∨
      getField fs "null_value_counts" = some .nullV)
    (h4 : getField fs "distinct_counts" = none ∨
      getField fs "distinct_counts" = some .nullV)
    (h5 : getField fs "lower_bounds" = none ∨
      getField fs "lower_bounds" = some .nullV)
    (h6 : getField fs "upper_bounds" = none ∨
      getField fs "upper_bounds" = some .nullV)
    (h7 : getField fs "key_metadata" = none ∨
      getField fs "key_metadata" = some .nullV)
    (h8 : getField fs "nan_value_counts" = none ∨
      getField fs "nan_value_counts" = some .nullV) :
    DataFile.decode (.recV fs) =
      .ok ⟨p, fmt, pv, rc, fsz, [], [], [], [], [], [], [], [], [], c, [], s⟩ := by
  simp only [DataFile.decode,
    reqField_eq decodeString hp, reqField_eq decodeString hf,
    reqField_eq decodeValue hpv, reqField_eq decodeI64 hrc,
    reqField_eq decodeI64 hfs, reqField_eq decodeI32 hcon,
    reqField_eq decodeI32 hsort,
    defaultField_none _ _ hso, defaultField_none _ _ heq,
    defaultOnNull_none _ _ h1, defaultOnNull_none _ _ h2,
    defaultOnNull_none _ _ h3, defaultOnNull_none _ _ h4,
    defaultOnNull_none _ _ h5, defaultOnNull_none _ _ h6,
    defaultOnNull_none _ _ h7, defaultOnNull_none _ _ h8,
    decodeString, decodeI64, decodeI32, hrc64, hfs64, hc32,
    hs32, if_true]
  rfl

/-- Witness for C2: a concrete record with `column_sizes` and
`key_metadata` explicitly null and the other optional fields absent
decodes with every collection empty. -/
theorem dataFile_null_default_witness :
    DataFile.decode (.recV (exampleDataFileFields ++
        [("column_sizes", .nullV), ("key_metadata", .nullV)])) =
      .ok ⟨"s3://b/f.parquet", "parquet", .nullV, 100, 2048, [], [], [],
        [], [], [], [], [], [], 0, [], 0⟩ :=
  dataFile_null_default _ _ _ _ _ _ _ _ rfl rfl rfl rfl (by decide) rfl
    (by decide) rfl (by decide) rfl (by decide) rfl rfl (Or.inr rfl)
    (Or.inl rfl) (Or.inl rfl) (Or.inl rfl) (Or.inl rfl) (Or.inl rfl)
    (Or.inr rfl) (Or.inl rfl)

/-- Claim C3: decoding a `ManifestEntry` whose `sequence_number` is null
while `status = 1` (ADDED) retains `sequence_number = none`, and a null
`snapshot_id` likewise stays `none`: the decoder substitutes no
inherited or default value. -/
theorem manifestEntry_inheritance_preserved (fs : List (String × Wire))
    (dw : Wire) (df : DataFile)
    (hst : getField fs "status" = some (.intV 1))
    (hsnap : getField fs "snapshot_id" = some .nullV)
    (hdf : getField fs "data_file" = some dw)
    (hdfok : DataFile.decode dw = .ok df)
    (hseq : getField fs "sequence_number" = some .nullV)
    (hfseq : getField fs "file_sequence_number" = none ∨
      getField fs "file_sequence_number" = some .nullV) :
    ManifestEntry.decode (.recV fs) = .ok ⟨1, none, df, none, none⟩ := by
  simp only [ManifestEntry.decode,
    reqField_eq decodeI32 hst, reqField_eq DataFile.decode hdf, hdfok,
    optField_none _ (Or.inr hsnap), optField_none _ (Or.inr hseq),
    optField_none _ hfseq, decodeI32]
  rfl

/-- Witness for C3 at a concrete entry record with null `snapshot_id`
and null `sequence_number` and status 1. -/
theorem manifestEntry_inheritance_preserved_witness :
    ManifestEntry.decode (.recV
      [("status", .intV 1), ("snapshot_id", .nullV),
       ("data_file", .recV exampleDataFileFields),
       ("sequence_number", .nullV), ("file_sequence_number", .nullV)]) =
      .ok ⟨1, none, exampleDataFile, none, none⟩ :=
  manifestEntry_inheritance_preserved _ _ _ rfl rfl rfl rfl rfl (Or.inr rfl)

/-- Entry record fields with a parameterized status value, null ids, and
a valid concrete data file. -/
def exampleEntryFields (st : Int) : List (String × Wire) :=
  [("status", .intV st), ("snapshot_id", .nullV),
   ("data_file", .recV exampleDataFileFields),
   ("sequence_number", .nullV), ("file_sequence_number", .nullV)]

/-- Counterexample to C4: a `ManifestEntry` record with `status = 5`
(outside the documented set 0..2), a `DataFile` record with
`file_format = "csv"` (not one of avro/orc/parquet), and a `DataFile`
record with `content = 7` all decode successfully — the code performs no
enum-domain validation, so decoding does not fail as the claim
requires. -/
theorem enum_out_of_range_decodes :
    ManifestEntry.decode (.recV (exampleEntryFields 5)) =
      .ok ⟨5, none, exampleDataFile, none, none⟩ ∧
    DataFile.decode
        (.recV (("file_format", .strV "csv") :: exampleDataFileFields)) =
      .ok ⟨"s3://b/f.parquet", "csv", .nullV, 100, 2048, [], [], [], [],
        [], [], [], [], [], 0, [], 0⟩ ∧
    DataFile.decode
        (.recV (("content", .intV 7) :: exampleDataFileFields)) =
      .ok ⟨"s3://b/f.parquet", "parquet", .nullV, 100, 2048, [], [], [],
        [], [], [], [], [], [], 7, [], 0⟩ := by
  refine ⟨rfl, rfl, rfl⟩

/-- Claim C4 (amended): the decoder performs no domain validation on the
enumerated fields — any in-range `i32` decodes as `status` (in
particular the valid boundary values 0, 1, 2), any string decodes as
`file_format`, and any in-range `i32` decodes as `content`; the value is
carried through unchanged and no error is raised for out-of-domain
values. -/
theorem enum_fields_unvalidated (st c : Int) (fmt : String)
    (hst : isI32 st) (hc : isI32 c) :
    ManifestEntry.decode (.recV (exampleEntryFields st)) =
      .ok ⟨st, none, exampleDataFile, none, none⟩ ∧
    DataFile.decode
        (.recV (("file_format", .strV fmt) :: exampleDataFileFields)) =
      .ok ⟨"s3://b/f.parquet", fmt, .nullV, 100, 2048, [], [], [], [],
        [], [], [], [], [], 0, [], 0⟩ ∧
    DataFile.decode
        (.recV (("content", .intV c) :: exampleDataFileFields)) =
      .ok ⟨"s3://b/f.parquet", "parquet", .nullV, 100, 2048, [], [], [],
        [], [], [], [], [], [], c, [], 0⟩ := by
  refine ⟨?_, ?_, ?_⟩
  · have h1 : getField (exampleEntryFields st) "status" =
        some (.intV st) := rfl
    simp only [ManifestEntry.decode, reqField_eq decodeI32 h1,
      reqField_eq DataFile.decode
        (show getField (exampleEntryFields st) "data_file" =
          some (.recV exampleDataFileFields) from rfl),
      optField_none decodeI64
        (Or.inr (show getField (exampleEntryFields st) "snapshot_id" =
          some .nullV from rfl)),
      optField_none decodeI64
        (Or.inr (show getField (exampleEntryFields st) "sequence_number" =
          some .nullV from rfl)),
      optField_none decodeI64
        (Or.inr
          (show getField (exampleEntryFields st) "file_sequence_number" =
            some .nullV from rfl)),
      decodeI32, hst, if_true]
    rfl
  · exact dataFile_null_default _ _ _ _ _ _ _ _ rfl rfl rfl rfl (by decide)
      rfl (by decide) rfl (by decide) rfl (by decide) rfl rfl (Or.inl rfl)
      (Or.inl rfl) (Or.inl rfl) (Or.inl rfl) (Or.inl rfl) (Or.inl rfl)
      (Or.inl rfl) (Or.inl rfl)
  · exact dataFile_null_default _ _ _ _ _ _ _ _ rfl rfl rfl rfl (by decide)
      rfl (by decide) rfl hc rfl (by decide) rfl rfl (Or.inl rfl)
      (Or.inl rfl) (Or.inl rfl) (Or.inl rfl) (Or.inl rfl) (Or.inl rfl)
      (Or.inl rfl) (Or.inl rfl)

/-- Witness for C4 (amended) at the boundary value 2 and an
out-of-domain format string. -/
theorem enum_fields_unvalidated_witness :
    ManifestEntry.decode (.recV (exampleEntryFields 2)) =
      .ok ⟨2, none, exampleDataFile, none, none⟩ ∧
    DataFile.decode
        (.recV (("file_format", .strV "text") :: exampleDataFileFields)) =
      .ok ⟨"s3://b/f.parquet", "text", .nullV, 100, 2048, [], [], [], [],
        [], [], [], [], [], 0, [], 0⟩ ∧
    DataFile.decode
        (.recV (("content", .intV 2) :: exampleDataFileFields)) =
      .ok ⟨"s3://b/f.parquet", "parquet", .nullV, 100, 2048, [], [], [],
        [], [], [], [], [], [], 2, [], 0⟩ :=
  enum_fields_unvalidated 2 2 "text" (by decide) (by decide)

/-- Claim C5 behaviour in the code: a `FieldSummary` record whose
`lower_bound` is explicitly null fails decode, and one whose
`lower_bound` is absent also fails decode (the bounds carry neither
`default` nor `DefaultOnNull`); a present byte value decodes fine. -/
theorem fieldSummary_null_bound_fails :
    decOk (FieldSummary.decode (.recV
      [("contains_null", .boolV false), ("contains_nan", .boolV false),
       ("lower_bound", .nullV), ("upper_bound", .bytesV [])])) = false ∧
    decOk (FieldSummary.decode (.recV
      [("contains_null", .boolV false), ("contains_nan", .boolV false),
       ("upper_bound", .bytesV [])])) = false ∧
    FieldSummary.decode (.recV
      [("contains_null", .boolV false), ("contains_nan", .boolV false),
       ("lower_bound", .bytesV []), ("upper_bound", .bytesV [])]) =
      .ok ⟨false, false, [], []⟩ := by
  refine ⟨rfl, rfl, rfl⟩

/-- Claim C6: decoding a `ManifestFile` whose optional count fields are
all explicitly null succeeds, and each count is preserved as `none`
(unknown) — never coerced to zero. -/
theorem manifestFile_null_counts_preserved (fs : List (String × Wire))
    (p : String) (len sid : Int) (pw : Wire) (parts : List FieldSummary)
    (psid : Int)
    (hp : getField fs "manifest_path" = some (.strV p))
    (hlen : getField fs "manifest_length" = some (.intV len))
    (hlen64 : isI64 len)
    (hsid : getField fs "added_snapshot_id" = some (.intV sid))
    (hsid64 : isI64 sid)
    (hafc : getField fs "added_files_count" = some .nullV)
    (hefc : getField fs "existing_files_count" = some .nullV)
    (hdfc : getField fs "deleted_fields_count" = some .nullV)
    (hparts : getField fs "partitions" = some pw)
    (hpartsok : decodeArr FieldSummary.decode pw = .ok parts)
    (harc : getField fs "added_rows_count" = some .nullV)
    (herc : getField fs "existing_rows_count" = some .nullV)
    (hdrc : getField fs "deleted_rows_count" = some .nullV)
    (hpsid : getField fs "partition_spec_id" = some (.intV psid))
    (hpsid32 : isI32 psid) :
    ManifestFile.decode (.recV fs) =
      .ok ⟨p, len, sid, none, none, none, parts, none, none, none, psid⟩ := by
  simp only [ManifestFile.decode,
    reqField_eq decodeString hp, reqField_eq decodeI64 hlen,
    reqField_eq decodeI64 hsid,
    reqField_eq (decodeArr FieldSummary.decode) hparts, hpartsok,
    reqField_eq decodeI32 hpsid,
    optField_none _ (Or.inr hafc), optField_none _ (Or.inr hefc),
    optField_none _ (Or.inr hdfc), optField_none _ (Or.inr harc),
    optField_none _ (Or.inr herc), optField_none _ (Or.inr hdrc),
    decodeString, decodeI64, decodeI32, hlen64, hsid64, hpsid32, if_true]
  rfl

/-- Witness for C6 at a concrete manifest-file record with all six
counts null and one field summary. -/
theorem manifestFile_null_counts_preserved_witness :
    ManifestFile.decode (.recV
      [("manifest_path", .strV "m1.avro"), ("manifest_length", .intV 1024),
       ("added_snapshot_id", .intV 77),
       ("added_files_count", .nullV), ("existing_files_count", .nullV),
       ("deleted_fields_count", .nullV),
       ("partitions", .arrV [.recV
         [("contains_null", .boolV true), ("contains_nan", .boolV false),
          ("lower_bound", .bytesV [1]), ("upper_bound", .bytesV [9])]]),
       ("added_rows_count", .nullV), ("existing_rows_count", .nullV),
       ("deleted_rows_count", .nullV), ("partition_spec_id", .intV 3)]) =
      .ok ⟨"m1.avro", 1024, 77, none, none, none,
        [⟨true, false, [1], [9]⟩], none, none, none, 3⟩ :=
  manifestFile_null_counts_preserved _ _ _ _ _ _ _ rfl rfl (by decide) rfl
    (by decide) rfl rfl rfl rfl rfl rfl rfl rfl rfl (by decide)

/-- Claim C7: a `DataFile` decoded with a present `split_offsets` list
exposes exactly that ordered sequence, unmodified — no re-sorting, no
deduplication, no ascending-order validation. -/
theorem dataFile_split_offsets_carried (fs : List (String × Wire))
    (p fmt : String) (pv : Wire) (rc fsz c s : Int) (os : List Int)
    (hos : ∀ o ∈ os, isI64 o)
    (hp : getField fs "file_path" = some (.strV p))
    (hf : getField fs "file_format" = some (.strV fmt))
    (hpv : getField fs "partition" = some pv)
    (hrc : getField fs "record_count" = some (.intV rc)) (hrc64 : isI64 rc)
    (hfs : getField fs "file_size_in_bytes" = some (.intV fsz))
    (hfs64 : isI64 fsz)
    (hcon : getField fs "content" = some (.intV c)) (hc32 : isI32 c)
    (hsort : getField fs "sort_order_id" = some (.intV s)) (hs32 : isI32 s)
    (hso : getField fs "split_offsets" = some (.arrV (os.map Wire.intV)))
    (heq : getField fs "equality_ids" = none)
    (h1 : getField fs "column_sizes" = none)
    (h2 : getField fs "value_counts" = none)
    (h3 : getField fs "null_value_counts" = none)
    (h4 : getField fs "distinct_counts" = none)
    (h5 : getField fs "lower_bounds" = none)
    (h6 : getField fs "upper_bounds" = none)
    (h7 : getField fs "key_metadata" = none)
    (h8 : getField fs "nan_value_counts" = none) :
    DataFile.decode (.recV fs) =
      .ok ⟨p, fmt, pv, rc, fsz, [], [], [], [], [], [], [], os, [], c, [],
        s⟩ := by
  simp only [DataFile.decode,
    reqField_eq decodeString hp, reqField_eq decodeString hf,
    reqField_eq decodeValue hpv, reqField_eq decodeI64 hrc,
    reqField_eq decodeI64 hfs, reqField_eq decodeI32 hcon,
    reqField_eq decodeI32 hsort,
    defaultField_eq _ _ hso, decodeArr_i64 os hos,
    defaultField_none _ _ heq,
    defaultOnNull_none _ _ (Or.inl h1), defaultOnNull_none _ _ (Or.inl h2),
    defaultOnNull_none _ _ (Or.inl h3), defaultOnNull_none _ _ (Or.inl h4),
    defaultOnNull_none _ _ (Or.inl h5), defaultOnNull_none _ _ (Or.inl h6),
    defaultOnNull_none _ _ (Or.inl h7), defaultOnNull_none _ _ (Or.inl h8),
    decodeString, decodeI64, decodeI32, hrc64, hfs64, hc32, hs32, if_true]
  rfl

/-- Witness for C7 at the example offsets `[0, 400, 900]`. -/
theorem dataFile_split_offsets_carried_witness :
    DataFile.decode (.recV (exampleDataFileFields ++
        [("split_offsets",
          .arrV [.intV 0, .intV 400, .intV 900])])) =
      .ok ⟨"s3://b/f.parquet", "parquet", .nullV, 100, 2048, [], [], [],
        [], [], [], [], [0, 400, 900], [], 0, [], 0⟩ :=
  dataFile_split_offsets_carried _ _ _ _ _ _ _ _ [0, 400, 900]
    (by decide) rfl rfl rfl rfl (by decide) rfl (by decide) rfl (by decide)
    rfl (by decide) rfl rfl rfl rfl rfl rfl rfl rfl rfl rfl

/-- Manifest header fields (kebab-case names) with a valid embedded
entry record and no partition-spec-id field. -/
def exampleManifestFields : List (String × Wire) :=
  [("schema", .recV (exampleEntryFields 1)), ("schema-id", .intV 0),
   ("partition-spec", .nullV), ("format-version", .intV 1),
   ("content", .strV "data")]

/-- Claim C10: decoding a `Manifest` header whose partition-spec-id
field is absent succeeds with `partition_spec_id = ""` (only that field
carries a default), while a header missing schema, schema-id,
partition-spec, format-version or content fails decode; and the schema
field must itself decode as a full `ManifestEntry` record — an opaque
schema document (a string) is rejected. -/
theorem manifest_header_defaults (fs : List (String × Wire))
    (ws pv : Wire) (me : ManifestEntry) (sid fv : Int) (c : String)
    (hs : getField fs "schema" = some ws)
    (hsok : ManifestEntry.decode ws = .ok me)
    (hsid : getField fs "schema-id" = some (.intV sid)) (hsid64 : isI64 sid)
    (hps : getField fs "partition-spec" = some pv)
    (hpsid : getField fs "partition-spec-id" = none)
    (hfv : getField fs "format-version" = some (.intV fv))
    (hfv64 : isI64 fv)
    (hc : getField fs "content" = some (.strV c)) :
    Manifest.decode (.recV fs) = .ok ⟨me, sid, pv, "", fv, c⟩ ∧
    decOk (Manifest.decode (.recV
      [("schema-id", .intV 0), ("partition-spec", .nullV),
       ("format-version", .intV 1), ("content", .strV "data")])) = false ∧
    decOk (Manifest.decode (.recV
      [("schema", .recV (exampleEntryFields 1)),
       ("partition-spec", .nullV), ("format-version", .intV 1),
       ("content", .strV "data")])) = false ∧
    decOk (Manifest.decode (.recV
      [("schema", .recV (exampleEntryFields 1)), ("schema-id", .intV 0),
       ("format-version", .intV 1), ("content", .strV "data")])) = false ∧
    decOk (Manifest.decode (.recV
      [("schema", .recV (exampleEntryFields 1)), ("schema-id", .intV 0),
       ("partition-spec", .nullV), ("content", .strV "data")])) = false ∧
    decOk (Manifest.decode (.recV
      [("schema", .recV (exampleEntryFields 1)), ("schema-id", .intV 0),
       ("partition-spec", .nullV), ("format-version", .intV 1)])) =
      false ∧
    decOk (Manifest.decode (.recV
      (("schema", .strV "schemadoc") :: exampleManifestFields))) =
      false := by
  refine ⟨?_, rfl, rfl, rfl, rfl, rfl, rfl⟩
  simp only [Manifest.decode,
    reqField_eq ManifestEntry.decode hs, hsok,
    reqField_eq decodeI64 hsid, reqField_eq decodeValue hps,
    defaultField_none _ _ hpsid, reqField_eq decodeI64 hfv,
    reqField_eq decodeString hc,
    decodeI64, decodeString, hsid64, hfv64, if_true]
  rfl

/-- Witness for C10 at a concrete header record without a
partition-spec-id field. -/
theorem manifest_header_defaults_witness :
    Manifest.decode (.recV exampleManifestFields) =
      .ok ⟨⟨1, none, exampleDataFile, none, none⟩, 0, .nullV, "", 1,
        "data"⟩ ∧
    decOk (Manifest.decode (.recV
      (("schema", .strV "schemadoc") :: exampleManifestFields))) =
      false :=
  ⟨(manifest_header_defaults exampleManifestFields
      (.recV (exampleEntryFields 1)) .nullV
      ⟨1, none, exampleDataFile, none, none⟩ 0 1 "data"
      rfl rfl rfl (by decide) rfl rfl rfl (by decide) rfl).1,
   (manifest_header_defaults exampleManifestFields
      (.recV (exampleEntryFields 1)) .nullV
      ⟨1, none, exampleDataFile, none, none⟩ 0 1 "data"
      rfl rfl rfl (by decide) rfl rfl rfl (by decide) rfl).2.2.2.2.2.2⟩
